import Mathlib

/-!
Verification of the authentication / record-storage layer of the
health-ai-super-app repository.

The SQLite database is embedded shallowly: each table is a list of rows in
insertion (rowid) order, and every operation of `database.py` (and the
login-form submit handler of `app.py`) becomes a pure Lean function on this
state.  Times are modelled as natural numbers of seconds: the source compares
`'%Y-%m-%d %H:%M:%S'`-formatted strings, whose lexicographic order agrees with
chronological order, so `<` on seconds is faithful.  The Argon2 password
hasher (`argon2.PasswordHasher`) is external to the repository and is modelled
as an oracle: `hash` stands for one call to `ph.hash` (salt included), and
`verify` returns the outcome of `ph.verify`, whose failures are Python
exceptions.  `secrets.token_urlsafe(32)` is likewise an external randomness
source; the freshly generated token is passed to `create_reset_token` as an
explicit argument.
-/

/-- Python values as they can appear among the keyword arguments of
`save_patient_data`: `None`, a number (`int`/`float`/`bool`, modelled as one
rational), or a string. -/
inductive PyVal where
  | none : PyVal
  | num : ℚ → PyVal
  | str : String → PyVal
deriving DecidableEq, Repr

/-- Check `v is None` (first validation of `save_patient_data`). -/
def pyIsNone : PyVal → Bool
  | .none => true
  | _ => false

/-- Check `isinstance(v, (int, float)) and v < 0` (second validation of
`save_patient_data`). -/
def pyNumNeg : PyVal → Bool
  | .num q => decide (q < 0)
  | _ => false

/-- Python `s.strip()`: remove leading and trailing whitespace. -/
def pyStrip (s : String) : String :=
  String.mk (((s.toList.dropWhile Char.isWhitespace).reverse.dropWhile
    Char.isWhitespace).reverse)

/-- Python `s.lower()`. -/
def pyLower (s : String) : String :=
  String.mk (s.toList.map Char.toLower)

/-- A character of the class `[a-zA-Z0-9_]` (also `\w` of the e-mail regex;
the source's `\w` additionally admits non-ASCII word characters, which none
of the claims exercise). -/
def isWordChar (c : Char) : Bool :=
  c.isAlphanum || c == '_'

/-- A character of the class `[\w\.-]`. -/
def isWordDotDash (c : Char) : Bool :=
  isWordChar c || c == '.' || c == '-'

/-- Regex `re.match(r'^[a-zA-Z0-9_]+$', s)` viewed as a Bool.  (Python's `$` also
matches before one trailing newline, but `register_user` only applies this
pattern to a stripped string, which cannot end in a newline.) -/
def usernameMatch (s : String) : Bool :=
  !s.toList.isEmpty && s.toList.all isWordChar

/-- The tail `[\w\.-]+\.\w+` of the e-mail regex: some split at a literal dot
with a nonempty `[\w\.-]+` prefix and a nonempty `\w+` suffix. -/
def emailTailOk (cs : List Char) : Bool :=
  (List.range cs.length).any fun j =>
    (cs.get? j == some '.') && decide (0 < j) && (cs.take j).all isWordDotDash &&
      decide (j + 1 < cs.length) && (cs.drop (j + 1)).all isWordChar

/-- Regex `re.match(r'^[\w\.-]+@[\w\.-]+\.\w+$', s)` viewed as a Bool: some `@`
splits the string into a nonempty `[\w\.-]+` local part and a domain matching
`[\w\.-]+\.\w+`.  (As above: applied only to stripped strings.) -/
def emailMatch (s : String) : Bool :=
  let cs := s.toList
  (List.range cs.length).any fun i =>
    (cs.get? i == some '@') && decide (0 < i) && (cs.take i).all isWordDotDash &&
      emailTailOk (cs.drop (i + 1))

/-- Regex `re.match(r'^\d{4}-\d{2}-\d{2} \d{2}:\d{2}:\d{2}$', ts)` of
`save_prediction`, by direct pattern match on the character list. -/
def timestampMatch (s : String) : Bool :=
  match s.toList with
  | [a, b, c, d, '-', e, f, '-', g, h, ' ', i, j, ':', k, l, ':', m, n] =>
      [a, b, c, d, e, f, g, h, i, j, k, l, m, n].all Char.isDigit
  | _ => false

/-- A row of the `users` table, column order as in `init_db`:
`(id, username, password_hash, email, theme, created_at)`.
`authenticate_user` reads the hash as `user[2]` and `app.py` reads the theme
as `user[4]`. -/
structure UserRow where
  id : Nat
  username : String
  password_hash : String
  email : String
  theme : String
  created_at : Nat
deriving DecidableEq, Repr

/-- A row of the `patients` table: the open-ended keyword fields of
`save_patient_data` are kept as an association list, plus the
`DEFAULT CURRENT_TIMESTAMP` column used for ordering. -/
structure PatientRow where
  id : Nat
  user_id : Nat
  fields : List (String × PyVal)
  timestamp : Nat
deriving DecidableEq, Repr

/-- A row of the `predictions` table.  `user_id` is an `Int` because
`save_prediction` explicitly checks `user_id <= 0`; `timestamp` is the
validated string the caller supplied. -/
structure PredRow where
  id : Nat
  user_id : Int
  prediction_type : String
  probability : ℚ
  outcome : String
  timestamp : String
deriving DecidableEq, Repr

/-- A row of the `password_resets` table. -/
structure ResetRow where
  id : Nat
  user_id : Nat
  token : String
  created_at : Nat
  expires_at : Nat
deriving DecidableEq, Repr

/-- The whole SQLite database: each table in rowid order, plus the next
AUTOINCREMENT id of each table. -/
structure DB where
  users : List UserRow
  patients : List PatientRow
  predictions : List PredRow
  password_resets : List ResetRow
  nextUserId : Nat
  nextPatientId : Nat
  nextPredId : Nat
  nextResetId : Nat
deriving DecidableEq, Repr

/-- A freshly initialised database (`init_db` creates empty tables;
AUTOINCREMENT ids start at 1). -/
def emptyDB : DB :=
  { users := [], patients := [], predictions := [], password_resets := []
    nextUserId := 1, nextPatientId := 1, nextPredId := 1, nextResetId := 1 }

/-- Outcome of one `ph.verify(hashed, password)` call of the Argon2 library:
success, or one of the exception classes it can raise (wrong password,
malformed hash, anything else). -/
inductive ArgonOutcome where
  | ok : ArgonOutcome
  | mismatch : ArgonOutcome
  | invalidHash : ArgonOutcome
  | otherError : ArgonOutcome
deriving DecidableEq, Repr

/-- The external Argon2 hasher `ph`, as an oracle: `hash p` is the digest
`ph.hash(p)` produces (salt folded in), and `verify h p` the outcome of
`ph.verify(h, p)`. -/
structure Argon2 where
  hash : String → String
  verify : String → String → ArgonOutcome

/-- Embeds `verify_password(password, hashed)` of `database.py`: it calls
`ph.verify(hashed, password)` inside `try`, returns its result on success and
`False` on any exception. -/
def verify_password (A : Argon2) (password hashed : String) : Bool :=
  match A.verify hashed password with
  | .ok => true
  | _ => false

/-- Embeds `hash_password(password)`. -/
def hash_password (A : Argon2) (password : String) : String :=
  A.hash password

/-- Result of `register_user`: `True` with the updated database, `False` on
`sqlite3.IntegrityError` (duplicate username or email), or a propagated
exception (the `ValueError`s of the validations, re-raised by the generic
handler). -/
inductive RegisterResult where
  | ok : DB → RegisterResult
  | duplicate : RegisterResult
  | err : String → RegisterResult
deriving DecidableEq, Repr

/-- Embeds `register_user(username, password, email)` of `database.py`.
`now` stands for the `CURRENT_TIMESTAMP` default of `created_at`. -/
def register_user (A : Argon2) (db : DB) (username password email : String)
    (now : Nat) : RegisterResult :=
  let u := pyStrip username
  let e := pyLower (pyStrip email)
  if u = "" ∨ password = "" ∨ e = "" then
    .err "Username, password, and email are required"
  else if password.length < 8 then
    .err "Password must be at least 8 characters long"
  else if u.length < 3 ∨ 50 < u.length then
    .err "Username must be between 3 and 50 characters"
  else if usernameMatch u = false then
    .err "Username can only contain letters, numbers, and underscores"
  else if emailMatch e = false then
    .err "Invalid email format"
  else if ∃ r ∈ db.users, r.username = u ∨ r.email = e then
    -- INSERT hits the UNIQUE(username) / UNIQUE(email) constraint:
    -- sqlite3.IntegrityError is caught and False returned, db unchanged.
    .duplicate
  else
    .ok { db with
      users := db.users ++
        [{ id := db.nextUserId, username := u,
           password_hash := hash_password A password, email := e,
           theme := "light", created_at := now }]
      nextUserId := db.nextUserId + 1 }

/-- The database as it stands after a `register_user` call: unchanged unless
the call returned `True`. -/
def db_after_register (A : Argon2) (db : DB) (username password email : String)
    (now : Nat) : DB :=
  match register_user A db username password email now with
  | .ok db' => db'
  | _ => db

/-- Embeds `authenticate_user(username, password)`: look up the first row
with the stripped username (`fetchone`), then check
`verify_password(password, user[2])`. -/
def authenticate_user (A : Argon2) (db : DB) (username password : String) :
    Option UserRow :=
  match db.users.find? (fun r => r.username == pyStrip username) with
  | some user => if verify_password A password user.password_hash then some user else none
  | none => none

/-- Embeds `save_patient_data(user_id, **kwargs)`: reject if any value is
`None`, then if any numeric value is negative, else insert one row (the
`CURRENT_TIMESTAMP` default is `now`). -/
def save_patient_data (db : DB) (user_id : Nat)
    (kwargs : List (String × PyVal)) (now : Nat) : Except String DB :=
  if kwargs.any (fun kv => pyIsNone kv.2) then
    .error "All input fields must be provided"
  else if kwargs.any (fun kv => pyNumNeg kv.2) then
    .error "Input values must be non-negative"
  else
    .ok { db with
      patients := db.patients ++
        [{ id := db.nextPatientId, user_id := user_id, fields := kwargs,
           timestamp := now }]
      nextPatientId := db.nextPatientId + 1 }

/-- The database as it stands after a `save_patient_data` call: unchanged
when the call raised. -/
def db_after_save_patient (db : DB) (user_id : Nat)
    (kwargs : List (String × PyVal)) (now : Nat) : DB :=
  match save_patient_data db user_id kwargs now with
  | .ok db' => db'
  | .error _ => db

/-- Embeds `save_prediction(user_id, prediction_type, probability, outcome,
timestamp)`: the five validations in source order, then one INSERT. -/
def save_prediction (db : DB) (user_id : Int) (prediction_type : String)
    (probability : ℚ) (outcome timestamp : String) : Except String DB :=
  if user_id ≤ 0 then
    .error "Invalid user_id"
  else if prediction_type = "" then
    .error "Invalid prediction_type"
  else if ¬ (0 ≤ probability ∧ probability ≤ 100) then
    .error "Probability must be between 0 and 100"
  else if pyStrip outcome = "" then
    .error "Outcome must be a non-empty string"
  else if timestampMatch timestamp = false then
    .error "Invalid timestamp format"
  else
    .ok { db with
      predictions := db.predictions ++
        [{ id := db.nextPredId, user_id := user_id,
           prediction_type := prediction_type, probability := probability,
           outcome := outcome, timestamp := timestamp }]
      nextPredId := db.nextPredId + 1 }

/-- Embeds `get_user_predictions(user_id, prediction_type=None)`:
`WHERE user_id = ?`, plus `AND prediction_type = ?` only when the optional
argument is truthy (neither `None` nor the empty string).  The
`pd.to_numeric(..., errors='coerce')` step is the identity here since the
`probability` column already holds numbers. -/
def get_user_predictions (db : DB) (user_id : Int)
    (prediction_type : Option String) : List PredRow :=
  let rows := db.predictions.filter (fun r => r.user_id == user_id)
  match prediction_type with
  | some t => if t = "" then rows else rows.filter (fun r => r.prediction_type == t)
  | none => rows

/-- Embeds `create_reset_token(user_id)`: DELETE every reset row of the user,
then INSERT one row with the fresh token (`tok`, standing for
`secrets.token_urlsafe(32)`) and `expires_at = now + 1 hour`.  Returns the
new state and the token. -/
def create_reset_token (db : DB) (user_id : Nat) (tok : String) (now : Nat) :
    DB × String :=
  ({ db with
      password_resets :=
        db.password_resets.filter (fun r => !(r.user_id == user_id)) ++
          [{ id := db.nextResetId, user_id := user_id, token := tok,
             created_at := now, expires_at := now + 3600 }]
      nextResetId := db.nextResetId + 1 }, tok)

/-- Embeds `get_reset_token(token)`: a pure SELECT of the first row with this
token whose `expires_at` is strictly in the future; no row is written or
deleted. -/
def get_reset_token (db : DB) (token : String) (now : Nat) : Option ResetRow :=
  db.password_resets.find? (fun r => r.token == token && decide (now < r.expires_at))

/-- Embeds `cleanup_expired_tokens()`: DELETE the rows with
`expires_at <= now`. -/
def cleanup_expired_tokens (db : DB) (now : Nat) : DB :=
  { db with password_resets := db.password_resets.filter (fun r => decide (now < r.expires_at)) }

/-- Embeds `delete_user(user_id)`: the four DELETEs (reset tokens,
predictions, patients, then the user row) committed as one unit — the
`with conn` block commits only after all four statements, and rolls back on
an exception, so the transition is all-or-nothing. -/
def delete_user (db : DB) (user_id : Nat) : DB :=
  { db with
    password_resets := db.password_resets.filter (fun r => !(r.user_id == user_id))
    predictions := db.predictions.filter (fun r => !(r.user_id == (user_id : Int)))
    patients := db.patients.filter (fun r => !(r.user_id == user_id))
    users := db.users.filter (fun r => !(r.id == user_id)) }

/-- The slice of `st.session_state` the login flow touches. -/
structure Session where
  logged_in : Bool
  username : String
  user_id : Option Nat
  theme : String
deriving DecidableEq, Repr

/-- Embeds the `quick_login` form-submit handler of `app.py` (lines 270-298):
authenticate; on success optionally check the TOTP code — but only report an
error when it fails, never stop — then unconditionally mark the session
logged in.  `tfa_code` is `none` when the 2FA input was not rendered;
Python's truthiness test `tfa_enabled and tfa_code` is the `c ≠ ""` guard.
`totp_verify` stands for `pyotp.TOTP(st.session_state["2fa_secret"]).verify`.
Returns the new session and the list of error messages shown. -/
def quick_login_submit (A : Argon2) (db : DB) (s : Session)
    (username password : String) (tfa_enabled : Bool)
    (tfa_code : Option String) (totp_verify : String → Bool) :
    Session × List String :=
  match authenticate_user A db username password with
  | some user =>
      let errors :=
        match tfa_enabled, tfa_code with
        | true, some c =>
            if c ≠ "" ∧ totp_verify c = false then ["Invalid 2FA code."] else []
        | _, _ => []
      ({ logged_in := true, username := username, user_id := some user.id,
         theme := if user.theme ≠ "" then user.theme else "light" }, errors)
  | none => (s, ["Invalid username or password."])

/-- Stable insertion into a timestamp-descending list (auxiliary for the
`ORDER BY timestamp DESC` of the history queries). -/
def insertTsDesc (r : PatientRow) : List PatientRow → List PatientRow
  | [] => [r]
  | x :: xs => if r.timestamp ≤ x.timestamp then x :: insertTsDesc r xs
               else r :: x :: xs

/-- Sort a list of patient rows by timestamp, descending (`ORDER BY
timestamp DESC`). -/
def sortTsDesc : List PatientRow → List PatientRow
  | [] => []
  | x :: xs => insertTsDesc x (sortTsDesc xs)

/-- The user's patient rows in the order the paginated query sees them. -/
def userRowsDesc (db : DB) (user_id : Nat) : List PatientRow :=
  sortTsDesc (db.patients.filter (fun r => r.user_id == user_id))

/-- Embeds `cached_patient_history(user_id, _timestamp, page, page_size)` of
`app.py`: `SELECT ... ORDER BY timestamp DESC LIMIT page_size OFFSET
(page-1)*page_size`, plus `SELECT COUNT(*)` for the total. -/
def cached_patient_history (db : DB) (user_id page page_size : Nat) :
    List PatientRow × Nat :=
  let offset := (page - 1) * page_size
  ((userRowsDesc db user_id).drop offset |>.take page_size,
   (db.patients.filter (fun r => r.user_id == user_id)).length)

/-! ### Helper lemmas -/

theorem filter_not_filter {α : Type} (p : α → Bool) (l : List α) :
    (l.filter (fun a => !(p a))).filter p = [] := by
  induction l with
  | nil => rfl
  | cons x xs ih =>
      by_cases h : p x = true <;> simp [List.filter_cons, h, ih]

theorem filter_idem {α : Type} (p : α → Bool) (l : List α) :
    (l.filter p).filter p = l.filter p := by
  induction l with
  | nil => rfl
  | cons x xs ih =>
      by_cases h : p x = true <;> simp [List.filter_cons, h, ih]

theorem length_insertTsDesc (r : PatientRow) (l : List PatientRow) :
    (insertTsDesc r l).length = l.length + 1 := by
  induction l with
  | nil => rfl
  | cons x xs ih =>
      by_cases h : r.timestamp ≤ x.timestamp <;>
        simp [insertTsDesc, h, ih]

theorem length_sortTsDesc (l : List PatientRow) :
    (sortTsDesc l).length = l.length := by
  induction l with
  | nil => rfl
  | cons x xs ih => simp [sortTsDesc, length_insertTsDesc, ih]

/-! ### Claim C4 -/

/-- C4: `delete_user(u)` removes, as one atomic transition, every
`password_resets`, `predictions` and `patients` row belonging to `u` and the
`users` row with id `u`: afterwards zero such rows remain in any of the four
tables.  (Atomicity holds because the four DELETEs share a single commit
inside the connection context manager, which rolls back on error; the
embedding is accordingly one total state transition.) -/
theorem delete_user_cascade_complete (db : DB) (user_id : Nat) :
    ((delete_user db user_id).patients.filter
        (fun r => r.user_id == user_id) = []) ∧
    ((delete_user db user_id).predictions.filter
        (fun r => r.user_id == (user_id : Int)) = []) ∧
    ((delete_user db user_id).password_resets.filter
        (fun r => r.user_id == user_id) = []) ∧
    ((delete_user db user_id).users.filter
        (fun r => r.id == user_id) = []) := by
  refine ⟨?_, ?_, ?_, ?_⟩ <;>
    simp only [delete_user] <;>
    exact filter_not_filter _ _

/-! ### Claim C8 -/

/-- C8: `create_reset_token` first deletes every prior reset row of the user
and then inserts exactly one new row carrying the freshly generated token,
expiring exactly one hour (3600 s) after issuance; rows of other users are
untouched, so each user has at most one active reset token. -/
theorem create_reset_token_single_active_one_hour (db : DB) (user_id : Nat)
    (tok : String) (now : Nat) :
    ((create_reset_token db user_id tok now).1.password_resets.filter
        (fun r => r.user_id == user_id) =
      [{ id := db.nextResetId, user_id := user_id, token := tok,
         created_at := now, expires_at := now + 3600 }]) ∧
    ((create_reset_token db user_id tok now).1.password_resets.filter
        (fun r => !(r.user_id == user_id)) =
      db.password_resets.filter (fun r => !(r.user_id == user_id))) ∧
    ((create_reset_token db user_id tok now).2 = tok) := by
  refine ⟨?_, ?_, rfl⟩
  · simp [create_reset_token, List.filter_append, filter_not_filter,
      List.filter_cons]
  · simp [create_reset_token, List.filter_append, filter_idem,
      List.filter_cons]

/-! ### Claim C10 -/

/-- C10: `verify_password` is total: whatever the underlying Argon2 `verify`
call does — including raising on a malformed or non-Argon2 stored hash — the
function returns a boolean, and every failure (wrong password, invalid hash,
any other exception) yields `false`; `true` occurs only when the library call
succeeded. -/
theorem verify_password_total_never_raises (A : Argon2) (password hashed : String) :
    verify_password A password hashed = false ∨
      (verify_password A password hashed = true ∧
        A.verify hashed password = ArgonOutcome.ok) := by
  cases h : A.verify hashed password <;> simp [verify_password, h]

/-! ### Claim C1 -/

/-- The state right after issuing token `"tok"` for user 1 at time 0 on a
fresh database. -/
def resetExampleDB : DB := (create_reset_token emptyDB 1 "tok" 0).1

/-- C1 counterexample: `get_reset_token` is a pure SELECT — it writes nothing
— so consuming a token does not invalidate it.  Concretely: after issuing
`"tok"` (expiry 3600), a first consumption at time 5 succeeds, and a second
consumption attempt at the later time 6 — against the same, unchanged,
database state — still succeeds instead of failing as not-found. -/
theorem get_reset_token_not_single_use :
    (get_reset_token resetExampleDB "tok" 5).isSome = true ∧
    (get_reset_token resetExampleDB "tok" 6).isSome = true := by
  decide

/-- C1 amended: consumption via `get_reset_token` does not invalidate the
token: the lookup performs no write, so after a successful consumption a
second attempt with the same token succeeds again at any time up to the first
attempt's time (and in general until the token expires or is explicitly
deleted); only expired or unknown tokens fail as not-found. -/
theorem get_reset_token_read_only_reusable (db : DB) (t : String)
    (now now' : Nat) (hle : now' ≤ now)
    (hs : (get_reset_token db t now).isSome = true) :
    (get_reset_token db t now').isSome = true := by
  unfold get_reset_token at hs ⊢
  rw [List.find?_isSome] at hs ⊢
  obtain ⟨r, hr, hpr⟩ := hs
  refine ⟨r, hr, ?_⟩
  simp only [Bool.and_eq_true, beq_iff_eq, decide_eq_true_eq] at hpr ⊢
  exact ⟨hpr.1, lt_of_le_of_lt hle hpr.2⟩

theorem get_reset_token_read_only_reusable_witness :
    5 ≤ 5 ∧ (get_reset_token resetExampleDB "tok" 5).isSome = true ∧
      (get_reset_token resetExampleDB "tok" 5).isSome = true :=
  ⟨le_refl 5, by decide,
    get_reset_token_read_only_reusable resetExampleDB "tok" 5 5 (le_refl 5)
      (by decide)⟩

/-! ### Claim C2 -/

/-- C2: with the current `quick_login` handler, when `authenticate_user`
succeeds, 2FA is enabled and the supplied TOTP code fails verification, the
"Invalid 2FA code." error is reported — and the login nevertheless proceeds:
the session ends up logged in with `user_id` set to the authenticated user's
id. -/
theorem tfa_failure_still_logs_in (A : Argon2) (db : DB) (s : Session)
    (username password code : String) (totp_verify : String → Bool)
    (u : UserRow)
    (hauth : authenticate_user A db username password = some u)
    (hcode : code ≠ "") (hver : totp_verify code = false) :
    ((quick_login_submit A db s username password true (some code)
        totp_verify).1.logged_in = true) ∧
    ((quick_login_submit A db s username password true (some code)
        totp_verify).1.user_id = some u.id) ∧
    ((quick_login_submit A db s username password true (some code)
        totp_verify).2 = ["Invalid 2FA code."]) := by
  simp [quick_login_submit, hauth, hcode, hver]

/-- A concrete Argon2 oracle for witnesses: deterministic digest, verify
succeeds exactly on the matching digest and otherwise reports a mismatch. -/
def exArgon : Argon2 :=
  { hash := fun p => "argon2:" ++ p
    verify := fun h p => if h = "argon2:" ++ p then .ok else .mismatch }

/-- The user row `register_user exArgon emptyDB "alice" ...` creates. -/
def exUser : UserRow :=
  { id := 1, username := "alice", password_hash := "argon2:password1",
    email := "alice@example.com", theme := "light", created_at := 0 }

/-- A one-user database for witnesses. -/
def exDB : DB := { emptyDB with users := [exUser], nextUserId := 2 }

/-- A logged-out session. -/
def exSession : Session :=
  { logged_in := false, username := "", user_id := none, theme := "light" }

/-- A TOTP verifier that rejects every code (the supplied code is wrong). -/
def exTotp : String → Bool := fun _ => false

theorem tfa_failure_still_logs_in_witness :
    (authenticate_user exArgon exDB "alice" "password1" = some exUser) ∧
    ("123456" ≠ "") ∧ (exTotp "123456" = false) ∧
    (((quick_login_submit exArgon exDB exSession "alice" "password1" true
        (some "123456") exTotp).1.logged_in = true) ∧
     ((quick_login_submit exArgon exDB exSession "alice" "password1" true
        (some "123456") exTotp).1.user_id = some exUser.id) ∧
     ((quick_login_submit exArgon exDB exSession "alice" "password1" true
        (some "123456") exTotp).2 = ["Invalid 2FA code."])) :=
  ⟨by decide, by decide, rfl,
    tfa_failure_still_logs_in exArgon exDB exSession "alice" "password1"
      "123456" exTotp exUser (by decide) (by decide) rfl⟩

/-! ### Claim C5 -/

/-- C5: `save_patient_data` rejects any call in which some provided field is
`None` or some numeric field is negative: it raises a `ValueError` before any
SQL runs, and the `patients` table row count is unchanged. -/
theorem save_patient_data_rejects_invalid (db : DB) (user_id : Nat)
    (kwargs : List (String × PyVal)) (now : Nat)
    (h : (∃ kv ∈ kwargs, kv.2 = PyVal.none) ∨
         (∃ kv ∈ kwargs, ∃ q : ℚ, kv.2 = PyVal.num q ∧ q < 0)) :
    (∃ msg, save_patient_data db user_id kwargs now = .error msg) ∧
    (db_after_save_patient db user_id kwargs now).patients.length =
      db.patients.length := by
  have herr : ∃ msg, save_patient_data db user_id kwargs now = .error msg := by
    rcases h with ⟨kv, hmem, hv⟩ | ⟨kv, hmem, q, hv, hq⟩
    · have h1 : kwargs.any (fun kv => pyIsNone kv.2) = true :=
        List.any_eq_true.2 ⟨kv, hmem, by simp [hv, pyIsNone]⟩
      exact ⟨"All input fields must be provided",
        by simp [save_patient_data, h1]⟩
    · by_cases h1 : kwargs.any (fun kv => pyIsNone kv.2) = true
      · exact ⟨"All input fields must be provided",
          by simp [save_patient_data, h1]⟩
      · have h2 : kwargs.any (fun kv => pyNumNeg kv.2) = true :=
          List.any_eq_true.2 ⟨kv, hmem, by simp [hv, pyNumNeg, hq]⟩
        exact ⟨"Input values must be non-negative",
          by simp [save_patient_data, h1, h2]⟩
  obtain ⟨msg, hm⟩ := herr
  exact ⟨⟨msg, hm⟩, by simp [db_after_save_patient, hm]⟩

theorem save_patient_data_rejects_invalid_witness :
    ((∃ kv ∈ [("bmi", PyVal.num (-5))], kv.2 = PyVal.none) ∨
     (∃ kv ∈ [("bmi", PyVal.num (-5))], ∃ q : ℚ,
        kv.2 = PyVal.num q ∧ q < 0)) ∧
    ((∃ msg, save_patient_data emptyDB 1 [("bmi", PyVal.num (-5))] 0 =
        .error msg) ∧
     (db_after_save_patient emptyDB 1
        [("bmi", PyVal.num (-5))] 0).patients.length =
       emptyDB.patients.length) :=
  ⟨Or.inr ⟨("bmi", PyVal.num (-5)), by simp, -5, rfl, by norm_num⟩,
   save_patient_data_rejects_invalid emptyDB 1 [("bmi", PyVal.num (-5))] 0
     (Or.inr ⟨("bmi", PyVal.num (-5)), by simp, -5, rfl, by norm_num⟩)⟩

/-! ### Claim C9 -/

/-- C9: on any valid call, saving a prediction with probability 73.5 via
`save_prediction` and reading the user's predictions back via
`get_user_predictions` yields exactly 73.5 appended to the previous
probabilities — no precision is lost across the storage boundary.  (The
number 73.5 = 147/2 is a small dyadic rational, stored bit-exactly by the
IEEE-754 `REAL` column the source uses, so the exact-rational model is
faithful at this value.) -/
theorem save_prediction_roundtrip_73_5 (db : DB) (user_id : Int)
    (ptype outcome ts : String)
    (h1 : 0 < user_id) (h2 : ptype ≠ "") (h3 : pyStrip outcome ≠ "")
    (h4 : timestampMatch ts = true) :
    ∃ db', save_prediction db user_id ptype (73.5 : ℚ) outcome ts = .ok db' ∧
      (get_user_predictions db' user_id none).map (fun r => r.probability) =
        (get_user_predictions db user_id none).map (fun r => r.probability)
          ++ [(73.5 : ℚ)] := by
  have hno : ¬ user_id ≤ 0 := not_le.2 h1
  have hprob : ¬ ¬ ((0 : ℚ) ≤ 73.5 ∧ (73.5 : ℚ) ≤ 100) := by norm_num
  have hts : ¬ timestampMatch ts = false := by simp [h4]
  have hsave : save_prediction db user_id ptype (73.5 : ℚ) outcome ts =
      .ok { db with
        predictions := db.predictions ++
          [{ id := db.nextPredId, user_id := user_id,
             prediction_type := ptype, probability := (73.5 : ℚ),
             outcome := outcome, timestamp := ts }]
        nextPredId := db.nextPredId + 1 } := by
    simp only [save_prediction]
    rw [if_neg hno, if_neg h2, if_neg hprob, if_neg h3, if_neg hts]
  refine ⟨_, hsave, ?_⟩
  simp [get_user_predictions, List.filter_append, List.filter_cons]

theorem save_prediction_roundtrip_73_5_witness :
    (0 < (1 : Int)) ∧ ("Diabetes" ≠ "") ∧ (pyStrip "Positive" ≠ "") ∧
    (timestampMatch "2024-01-01 00:00:00" = true) ∧
    (∃ db', save_prediction emptyDB 1 "Diabetes" (73.5 : ℚ) "Positive"
        "2024-01-01 00:00:00" = .ok db' ∧
      (get_user_predictions db' 1 none).map (fun r => r.probability) =
        (get_user_predictions emptyDB 1 none).map (fun r => r.probability)
          ++ [(73.5 : ℚ)]) :=
  ⟨by norm_num, by decide, by decide, by decide,
    save_prediction_roundtrip_73_5 emptyDB 1 "Diabetes" "Positive"
      "2024-01-01 00:00:00" (by norm_num) (by decide) (by decide) (by decide)⟩

/-! ### Claim C6 -/

/-- C6: the paginated history query computes `OFFSET = (page-1)*page_size`
over the timestamp-descending ordering of the user's rows: with exactly 23
records and `page_size = 10`, page 1 returns records 1–10 of that ordering
(10 rows), page 3 returns records 21–23 (3 rows), and `total_count = 23` is
returned in both cases. -/
theorem cached_patient_history_pagination_23 (db : DB) (user_id : Nat)
    (h : (db.patients.filter (fun r => r.user_id == user_id)).length = 23) :
    ((cached_patient_history db user_id 1 10).1 =
      (userRowsDesc db user_id).take 10) ∧
    ((cached_patient_history db user_id 1 10).1.length = 10) ∧
    ((cached_patient_history db user_id 1 10).2 = 23) ∧
    ((cached_patient_history db user_id 3 10).1 =
      (userRowsDesc db user_id).drop 20) ∧
    ((cached_patient_history db user_id 3 10).1.length = 3) ∧
    ((cached_patient_history db user_id 3 10).2 = 23) := by
  have hlen : (userRowsDesc db user_id).length = 23 := by
    rw [userRowsDesc, length_sortTsDesc, h]
  have hdrop : ((userRowsDesc db user_id).drop 20).length = 3 := by
    rw [List.length_drop, hlen]
  refine ⟨?_, ?_, h, ?_, ?_, h⟩
  · simp [cached_patient_history]
  · simp [cached_patient_history, List.length_take, hlen]
  · simp only [cached_patient_history]
    exact List.take_of_length_le (by rw [hdrop]; norm_num)
  · simp only [cached_patient_history]
    rw [List.take_of_length_le (show ((userRowsDesc db user_id).drop ((3-1)*10)).length ≤ 10 by rw [hdrop]; norm_num)]
    exact hdrop

/-- A database holding exactly 23 patient rows, all of user 7 with distinct
timestamps. -/
def exDB23 : DB :=
  { emptyDB with
    patients := (List.range 23).map (fun i =>
      { id := i + 1, user_id := 7, fields := [], timestamp := i })
    nextPatientId := 24 }

theorem cached_patient_history_pagination_23_witness :
    ((exDB23.patients.filter (fun r => r.user_id == 7)).length = 23) ∧
    (((cached_patient_history exDB23 7 1 10).1 =
        (userRowsDesc exDB23 7).take 10) ∧
     ((cached_patient_history exDB23 7 1 10).1.length = 10) ∧
     ((cached_patient_history exDB23 7 1 10).2 = 23) ∧
     ((cached_patient_history exDB23 7 3 10).1 =
        (userRowsDesc exDB23 7).drop 20) ∧
     ((cached_patient_history exDB23 7 3 10).1.length = 3) ∧
     ((cached_patient_history exDB23 7 3 10).2 = 23)) :=
  ⟨by decide, cached_patient_history_pagination_23 exDB23 7 (by decide)⟩

/-! ### Claim C3 -/

/-- C3: registering the same username (and email) a second time hits the
UNIQUE constraint: the second attempt returns the distinct duplicate failure
(`False`, versus the exceptions other errors propagate as), the database is
left unchanged, and exactly one `users` row with that username exists — a
second row is never created. -/
theorem register_user_duplicate_second_attempt (A : Argon2) (db db' : DB)
    (username password email : String) (n1 n2 : Nat)
    (h : register_user A db username password email n1 = .ok db') :
    (register_user A db' username password email n2 = .duplicate) ∧
    (db_after_register A db' username password email n2 = db') ∧
    ((db'.users.filter (fun r => r.username == pyStrip username)).length = 1) := by
  simp only [register_user] at h
  split_ifs at h with h1 h2 h3 h4 h5 h6
  simp only [RegisterResult.ok.injEq] at h
  subst h
  set R : UserRow :=
    { id := db.nextUserId, username := pyStrip username,
      password_hash := hash_password A password,
      email := pyLower (pyStrip email), theme := "light",
      created_at := n1 } with hR
  have hRu : R.username = pyStrip username := by rw [hR]
  have hdup : register_user A
      { db with users := db.users ++ [R], nextUserId := db.nextUserId + 1 }
      username password email n2 = .duplicate := by
    simp only [register_user]
    rw [if_neg h1, if_neg h2, if_neg h3, if_neg h4, if_neg h5,
      if_pos ⟨R, by simp, Or.inl hRu⟩]
  have hnil : db.users.filter (fun r => r.username == pyStrip username) = [] := by
    rw [List.filter_eq_nil_iff]
    intro r hr
    simp only [beq_iff_eq]
    exact fun hu => h6 ⟨r, hr, Or.inl hu⟩
  refine ⟨hdup, ?_, ?_⟩
  · simp only [db_after_register, hdup]
  · simp [List.filter_append, hnil, List.filter_cons, hRu]

theorem register_user_duplicate_second_attempt_witness :
    (register_user exArgon emptyDB "alice" "password1" "alice@example.com" 0 =
      .ok exDB) ∧
    ((register_user exArgon exDB "alice" "password1" "alice@example.com" 0 =
        .duplicate) ∧
     (db_after_register exArgon exDB "alice" "password1" "alice@example.com" 0 =
        exDB) ∧
     ((exDB.users.filter (fun r => r.username == pyStrip "alice")).length = 1)) :=
  ⟨by decide,
    register_user_duplicate_second_attempt exArgon emptyDB exDB "alice"
      "password1" "alice@example.com" 0 0 (by decide)⟩

/-! ### Claim C7 -/

/-- C7: for a registered user, `authenticate_user` with the correct password
returns that user's row — whose stored credential is the Argon2 digest
`A.hash password`, never the plaintext — and with a wrong password returns
`None`.  The hypotheses are the Argon2 contract at these inputs: the digest
verifies against the password that produced it and fails against the other
one; the decision is taken solely by `verify_password` on the stored hash. -/
theorem authenticate_user_correct_vs_wrong_password (A : Argon2) (db db' : DB)
    (username password wrong email : String) (n : Nat)
    (hreg : register_user A db username password email n = .ok db')
    (hok : A.verify (A.hash password) password = .ok)
    (hwrong : A.verify (A.hash password) wrong ≠ .ok) :
    (∃ row, authenticate_user A db' username password = some row ∧
        row.password_hash = A.hash password) ∧
    (authenticate_user A db' username wrong = none) := by
  simp only [register_user] at hreg
  split_ifs at hreg with h1 h2 h3 h4 h5 h6
  simp only [RegisterResult.ok.injEq] at hreg
  subst hreg
  set R : UserRow :=
    { id := db.nextUserId, username := pyStrip username,
      password_hash := hash_password A password,
      email := pyLower (pyStrip email), theme := "light",
      created_at := n } with hR
  have hfind : (db.users ++ [R]).find?
      (fun r => r.username == pyStrip username) = some R := by
    rw [List.find?_append]
    have hnone : db.users.find? (fun r => r.username == pyStrip username) =
        none := by
      rw [List.find?_eq_none]
      intro r hr
      simp only [beq_iff_eq]
      exact fun hu => h6 ⟨r, hr, Or.inl hu⟩
    rw [hnone]
    simp [List.find?, hR]
  have hRh : R.password_hash = A.hash password := rfl
  have hv1 : verify_password A password R.password_hash = true := by
    rw [hRh]
    simp [verify_password, hok]
  have hv2 : verify_password A wrong R.password_hash = false := by
    rw [hRh]
    cases hc : A.verify (A.hash password) wrong with
    | ok => exact absurd hc hwrong
    | mismatch => simp [verify_password, hc]
    | invalidHash => simp [verify_password, hc]
    | otherError => simp [verify_password, hc]
  have hauth : ∀ pw, authenticate_user A { db with users := db.users ++ [R], nextUserId := db.nextUserId + 1 } username pw = (match (db.users ++ [R]).find? (fun r => r.username == pyStrip username) with | some user => if verify_password A pw user.password_hash then some user else none | none => none) := fun pw => rfl
  constructor
  · refine ⟨R, ?_, hRh⟩
    rw [hauth password, hfind]
    simp [hv1]
  · rw [hauth wrong, hfind]
    simp [hv2]

theorem authenticate_user_correct_vs_wrong_password_witness :
    (register_user exArgon emptyDB "alice" "password1" "alice@example.com" 0 =
      .ok exDB) ∧
    (exArgon.verify (exArgon.hash "password1") "password1" = .ok) ∧
    (exArgon.verify (exArgon.hash "password1") "wrongpass" ≠ .ok) ∧
    ((∃ row, authenticate_user exArgon exDB "alice" "password1" = some row ∧
        row.password_hash = exArgon.hash "password1") ∧
     (authenticate_user exArgon exDB "alice" "wrongpass" = none)) :=
  ⟨by decide, by decide, by decide,
    authenticate_user_correct_vs_wrong_password exArgon emptyDB exDB "alice"
      "password1" "wrongpass" "alice@example.com" 0 (by decide) (by decide)
      (by decide)⟩
